import Mathlib

/-!
Verification of the bptracker-backend reading store and migration procedure.

Shallow embedding of the repository's Python code:
* `src/src/schemas.py` — pydantic bounds validation (`BloodPressureReadingBase`,
  `BloodPressureReadingCreate`);
* `src/src/models.py` — the ORM model (mapped columns of
  `blood_pressure_readings`);
* `src/src/routers/readings.py` — the five endpoint handlers;
* `src/scripts/migrate_sqlite_to_postgres.py` — `migrate_data`.

Date-times are modelled as integers (an abstract linearly ordered time value);
the database is modelled as a `Store`: the list of persisted rows together with
the auto-increment counter that assigns the next primary key.  Fallible Python
code (KeyError, TypeError, HTTP 4xx responses) is modelled with `Except`.
-/

namespace BPTracker

/-- A persisted row of the `blood_pressure_readings` table
(`src/src/models.py`): columns `id`, `systolic`, `diastolic`, `heart_rate`,
`timestamp`. -/
structure Reading where
  id : Int
  systolic : Int
  diastolic : Int
  heart_rate : Int
  timestamp : Int
  deriving Repr, DecidableEq

/-- The relational store backing readings: the rows of the single table plus
the auto-increment counter (SQLite `AUTOINCREMENT` / PostgreSQL sequence
`blood_pressure_readings_id_seq`) that yields the id of the next inserted
row. -/
structure Store where
  rows : List Reading
  nextId : Int
  deriving Repr, DecidableEq

/-- A store with no rows and a fresh auto-increment counter (both SQLite and
PostgreSQL start their counters so that the first insert receives id 1). -/
def emptyStore : Store := { rows := [], nextId := 1 }

/-- Well-formedness of a store: every persisted id is below the
auto-increment counter, so a freshly assigned id never collides with an
existing row.  Every store reachable through the API from `emptyStore`
satisfies this. -/
def Store.Wf (st : Store) : Prop := ∀ r ∈ st.rows, r.id < st.nextId

/-- Errors surfaced by the HTTP layer: 422 (pydantic/query validation
failure) and 404 (`HTTPException(status_code=404)`). -/
inductive ApiError where
  | validationError
  | notFound
  deriving Repr, DecidableEq

/-- Python exceptions relevant to the migration script: `KeyError` from a
missing dict key, `TypeError` from the SQLAlchemy declarative constructor
receiving a keyword argument that names no mapped column. -/
inductive PyErr where
  | keyError
  | typeError
  deriving Repr, DecidableEq

/-- Bounds check of `BloodPressureReadingBase` (`src/src/schemas.py` lines
8-13): `systolic` in [40,300], `diastolic` in [20,200], `heart_rate` in
[20,250].  Pydantic rejects the request with a 422 before the handler runs
when any bound fails. -/
def inBounds (s d h : Int) : Bool :=
  (40 ≤ s && s ≤ 300) && (20 ≤ d && d ≤ 200) && (20 ≤ h && h ≤ 250)

/-- A validated request body of `BloodPressureReadingCreate`: the three
numeric fields plus an optional caller-supplied timestamp. -/
structure ReadingCreate where
  systolic : Int
  diastolic : Int
  heart_rate : Int
  timestamp : Option Int
  deriving Repr, DecidableEq

/-- Pydantic parsing of a POST body into `BloodPressureReadingCreate`:
succeeds exactly when all three numeric fields satisfy their bounds. -/
def parseReadingCreate (s d h : Int) (t : Option Int) :
    Except ApiError ReadingCreate :=
  if inBounds s d h then .ok ⟨s, d, h, t⟩ else .error .validationError

/-- Handler `create_reading` (`src/src/routers/readings.py` lines 41-67) on an
already-validated body: builds the row with
`timestamp=reading.timestamp or datetime.now()` (a `datetime` is always
truthy, so a supplied timestamp is kept and only `None` falls back to the
clock), inserts it, and returns it after refresh.  The store assigns
`id = nextId` and advances the counter. -/
def create_reading (st : Store) (rc : ReadingCreate) (now : Int) :
    Store × Reading :=
  let r : Reading :=
    { id := st.nextId, systolic := rc.systolic, diastolic := rc.diastolic,
      heart_rate := rc.heart_rate, timestamp := rc.timestamp.getD now }
  ({ rows := st.rows ++ [r], nextId := st.nextId + 1 }, r)

/-- The POST /readings/ endpoint: pydantic validation followed by
`create_reading`.  On a 422 the store is untouched. -/
def postReading (st : Store) (s d h : Int) (t : Option Int) (now : Int) :
    Store × Except ApiError Reading :=
  match parseReadingCreate s d h t with
  | .ok rc =>
      let p := create_reading st rc now
      (p.1, .ok p.2)
  | .error e => (st, .error e)

/-- Ordering used by `get_readings`: `ORDER BY timestamp DESC`. -/
def tsDesc (a b : Reading) : Prop := b.timestamp ≤ a.timestamp

instance : DecidableRel tsDesc := fun a b =>
  inferInstanceAs (Decidable (b.timestamp ≤ a.timestamp))

instance : IsTotal Reading tsDesc :=
  ⟨fun a b => le_total b.timestamp a.timestamp⟩

instance : IsTrans Reading tsDesc :=
  ⟨fun _ _ _ hab hbc => le_trans hbc hab⟩

/-- The rows of the table sorted by timestamp descending (the result set of
`db.query(...).order_by(timestamp.desc())`). -/
def sortByTimestampDesc (l : List Reading) : List Reading :=
  l.insertionSort tsDesc

/-- Handler `get_readings` (`src/src/routers/readings.py` lines 17-38) on
already-validated query parameters: order by timestamp descending, then
`.offset(skip).limit(limit)`. -/
def get_readings (st : Store) (skip limit : Nat) : List Reading :=
  ((sortByTimestampDesc st.rows).drop skip).take limit

/-- The GET /readings/ endpoint with its query-parameter declarations
`skip: int = Query(0, ge=0)` and `limit: int = Query(100, ge=1, le=100)`:
an omitted parameter takes its default, an out-of-range one yields a 422. -/
def getReadingsEndpoint (st : Store) (skipArg limitArg : Option Int) :
    Except ApiError (List Reading) :=
  let skip := skipArg.getD 0
  let limit := limitArg.getD 100
  if 0 ≤ skip && (1 ≤ limit && limit ≤ 100) then
    .ok (get_readings st skip.toNat limit.toNat)
  else
    .error .validationError

/-- Handler `get_reading` (`src/src/routers/readings.py` lines 70-95):
`filter(id == reading_id).first()`; raises a 404 when no row matches. -/
def get_reading (st : Store) (readingId : Int) : Except ApiError Reading :=
  match st.rows.find? (fun r => r.id == readingId) with
  | some r => .ok r
  | none => .error .notFound

/-- Handler `delete_reading` (`src/src/routers/readings.py` lines 98-121):
looks the row up with `.first()`, raises a 404 when absent, otherwise
deletes that row and commits. -/
def delete_reading (st : Store) (readingId : Int) :
    Store × Except ApiError Unit :=
  match st.rows.find? (fun r => r.id == readingId) with
  | some _ =>
      ({ st with rows := st.rows.eraseP (fun r => r.id == readingId) }, .ok ())
  | none => (st, .error .notFound)

/-- Handler `delete_all_readings` (`src/src/routers/readings.py` lines
124-135): `db.query(BloodPressureReading).delete()` removes every row; the
auto-increment counter is not reset. -/
def delete_all_readings (st : Store) : Store := { st with rows := [] }

/-! ## Migration script (`src/scripts/migrate_sqlite_to_postgres.py`) -/

/-- A row as fetched from SQLite with `sqlite3.Row` and converted by
`dict(reading)`: a finite map from column name to value.  All values,
including the stored date-time, are modelled as integers
(`datetime.fromisoformat` applied to the stored text is the identity in this
abstraction). -/
abbrev Row := List (String × Int)

/-- Python dict subscript `reading_dict[k]`: `KeyError` when the column is
absent from the fetched row. -/
def rowLookup (row : Row) (k : String) : Except PyErr Int :=
  match row.lookup k with
  | some v => .ok v
  | none => .error .keyError

/-- The mapped columns of `BloodPressureReading` (`src/src/models.py`):
these are the only keyword arguments its SQLAlchemy declarative constructor
accepts. -/
def modelColumns : List String :=
  ["id", "systolic", "diastolic", "heart_rate", "timestamp"]

/-- The SQLAlchemy declarative constructor `BloodPressureReading(**kwargs)`:
raises `TypeError` when any keyword argument names no mapped column,
otherwise builds the row object from the given columns. -/
def modelNew (kwargs : List (String × Int)) : Except PyErr Reading :=
  if kwargs.all (fun kv => modelColumns.contains kv.1) then
    .ok { id := (kwargs.lookup "id").getD 0,
          systolic := (kwargs.lookup "systolic").getD 0,
          diastolic := (kwargs.lookup "diastolic").getD 0,
          heart_rate := (kwargs.lookup "heart_rate").getD 0,
          timestamp := (kwargs.lookup "timestamp").getD 0 }
  else .error .typeError

/-- The body of the migration loop (`migrate_data`, lines 54-69): read each
column of the fetched row — including `note`, which the table created from
`src/src/models.py` does not have — and pass them all, `note` included, to
the `BloodPressureReading` constructor. -/
def migrateRow (row : Row) : Except PyErr Reading := do
  let i ← rowLookup row "id"
  let s ← rowLookup row "systolic"
  let d ← rowLookup row "diastolic"
  let h ← rowLookup row "heart_rate"
  let ts ← rowLookup row "timestamp"
  let noteVal ← rowLookup row "note"
  modelNew [("id", i), ("systolic", s), ("diastolic", d), ("heart_rate", h),
            ("timestamp", ts), ("note", noteVal)]

/-- The migration loop over all fetched source rows, accumulating the
staged inserts of the session; the first exception aborts the loop. -/
def migrateRows : List Row → Except PyErr (List Reading)
  | [] => .ok []
  | row :: rest =>
      match migrateRow row with
      | .error e => .error e
      | .ok r =>
          match migrateRows rest with
          | .error e => .error e
          | .ok rs => .ok (r :: rs)

/-- Largest id present in the table (`SELECT MAX(id)` over the target after
the inserts; the claims under study only exercise nonempty tables, where
`MAX` is the list maximum). -/
def maxId (l : List Reading) : Int := (l.map Reading.id).foldl max 0

/-- Procedure `migrate_data` (`src/scripts/migrate_sqlite_to_postgres.py`
lines 46-88): stage an insert per source row, commit, then
`setval('blood_pressure_readings_id_seq', MAX(id))` so the next insert
receives `MAX(id) + 1`.  Any exception triggers `db.rollback()`, leaving
the target as it was; the source connection is only ever read.  Returns the
(unchanged) source alongside the resulting target. -/
def migrate_data (src : List Row) (target : Store) : List Row × Store :=
  match migrateRows src with
  | .ok rs =>
      let committed : Store := { target with rows := target.rows ++ rs }
      (src, { committed with nextId := maxId committed.rows + 1 })
  | .error _ => (src, target)

/-! ## Theorems -/

/-- Unfolding of the `inBounds` check into the six stated inequalities. -/
theorem inBounds_iff (s d h : Int) :
    inBounds s d h = true ↔
      (40 ≤ s ∧ s ≤ 300 ∧ 20 ≤ d ∧ d ≤ 200 ∧ 20 ≤ h ∧ h ≤ 250) := by
  simp [inBounds, and_assoc]

/-- C5: create accepts an input exactly when all three numeric fields satisfy
their bounds (systolic in [40,300], diastolic in [20,200], heart_rate in
[20,250]); when the bounds fail the request is rejected with a validation
error and no row is persisted (the store is returned unchanged); no
cross-field relation is required. -/
theorem create_accepts_iff_bounds (st : Store) (s d h : Int) (t : Option Int)
    (now : Int) :
    ((∃ r, (postReading st s d h t now).2 = .ok r) ↔
      (40 ≤ s ∧ s ≤ 300 ∧ 20 ≤ d ∧ d ≤ 200 ∧ 20 ≤ h ∧ h ≤ 250)) ∧
    (¬(40 ≤ s ∧ s ≤ 300 ∧ 20 ≤ d ∧ d ≤ 200 ∧ 20 ≤ h ∧ h ≤ 250) →
      postReading st s d h t now = (st, .error .validationError)) := by
  by_cases hb : inBounds s d h = true
  · refine ⟨?_, fun hn => absurd ((inBounds_iff s d h).mp hb) hn⟩
    rw [iff_true_right ((inBounds_iff s d h).mp hb)]
    exact ⟨⟨st.nextId, s, d, h, t.getD now⟩,
      by simp [postReading, parseReadingCreate, hb, create_reading]⟩
  · have hnb : ¬(40 ≤ s ∧ s ≤ 300 ∧ 20 ≤ d ∧ d ≤ 200 ∧ 20 ≤ h ∧ h ≤ 250) :=
      fun hc => hb ((inBounds_iff s d h).mpr hc)
    have hres : postReading st s d h t now = (st, .error .validationError) := by
      simp [postReading, parseReadingCreate, hb]
    refine ⟨?_, fun _ => hres⟩
    rw [iff_false_right hnb]
    rintro ⟨r, hr⟩
    rw [hres] at hr
    exact Except.noConfusion hr

/-- Witness for C5 at the stated boundary: systolic=300 is accepted,
systolic=301 is rejected with the store unchanged. -/
theorem create_accepts_iff_bounds_witness :
    (∃ r, (postReading emptyStore 300 80 70 none 0).2 = .ok r) ∧
    postReading emptyStore 301 80 70 none 0 =
      (emptyStore, .error .validationError) :=
  ⟨(create_accepts_iff_bounds emptyStore 300 80 70 none 0).1.mpr (by decide),
   (create_accepts_iff_bounds emptyStore 301 80 70 none 0).2 (by decide)⟩

/-- C7: after `delete_all_readings`, `get_readings` returns the empty
sequence for every skip and limit. -/
theorem delete_all_then_list_empty (st : Store) (skip limit : Nat) :
    get_readings (delete_all_readings st) skip limit = [] := by
  simp [get_readings, delete_all_readings, sortByTimestampDesc,
    List.insertionSort]

/-- C10: with both query parameters omitted, skip defaults to 0 and limit
defaults to 100, so the parameterless list succeeds and returns the first
100 readings of the timestamp-descending ordering. -/
theorem list_defaults (st : Store) :
    getReadingsEndpoint st none none = .ok (get_readings st 0 100) ∧
    get_readings st 0 100 = (sortByTimestampDesc st.rows).take 100 := by
  exact ⟨rfl, by simp [get_readings]⟩

/-- C6: for an id matching no row, `get_reading` and `delete_reading` both
answer with the 404 signal rather than crashing, and `delete_reading`
returns the store unchanged. -/
theorem absent_id_not_found (st : Store) (rid : Int)
    (habs : ∀ r ∈ st.rows, r.id ≠ rid) :
    get_reading st rid = .error .notFound ∧
    delete_reading st rid = (st, .error .notFound) := by
  have hf : st.rows.find? (fun r => r.id == rid) = none := by
    rw [List.find?_eq_none]
    intro r hr
    simpa using habs r hr
  exact ⟨by simp [get_reading, hf], by simp [delete_reading, hf]⟩

/-- Witness for C6: id 3 is absent from the empty store; get and delete both
return 404 and the store is unchanged. -/
theorem absent_id_not_found_witness :
    get_reading emptyStore 3 = .error .notFound ∧
    delete_reading emptyStore 3 = (emptyStore, .error .notFound) :=
  absent_id_not_found emptyStore 3 (by simp [emptyStore])

/-- C8: on a valid body, create stores the clock value `now` as the
timestamp when the caller supplies none, and stores the supplied value `x`
when the caller supplies one. -/
theorem create_timestamp_default (st : Store) (s d h now x : Int)
    (hb : inBounds s d h = true) :
    (postReading st s d h none now).2 =
      .ok { id := st.nextId, systolic := s, diastolic := d, heart_rate := h,
            timestamp := now } ∧
    (postReading st s d h (some x) now).2 =
      .ok { id := st.nextId, systolic := s, diastolic := d, heart_rate := h,
            timestamp := x } := by
  exact ⟨by simp [postReading, parseReadingCreate, hb, create_reading],
         by simp [postReading, parseReadingCreate, hb, create_reading]⟩

/-- Witness for C8 at a concrete valid triple. -/
theorem create_timestamp_default_witness :
    (postReading emptyStore 120 80 70 none 77).2 =
      .ok { id := 1, systolic := 120, diastolic := 80, heart_rate := 70,
            timestamp := 77 } ∧
    (postReading emptyStore 120 80 70 (some 42) 77).2 =
      .ok { id := 1, systolic := 120, diastolic := 80, heart_rate := 70,
            timestamp := 42 } :=
  create_timestamp_default emptyStore 120 80 70 77 42 (by decide)

/-- C9: no operation mutates an existing reading.  Create either leaves the
rows unchanged (validation failure) or appends exactly the returned new row
after the untouched existing rows; delete and delete-all produce a sublist
of the original rows, so every surviving row is one of the original rows,
field-for-field; get and list take no store argument back out, so they
modify nothing. -/
theorem operations_never_mutate (st : Store) (s d h : Int) (t : Option Int)
    (now rid : Int) :
    ((postReading st s d h t now).1.rows = st.rows ∨
      ∃ r, (postReading st s d h t now).2 = .ok r ∧
        (postReading st s d h t now).1.rows = st.rows ++ [r]) ∧
    ((delete_reading st rid).1.rows.Sublist st.rows) ∧
    ((delete_all_readings st).rows.Sublist st.rows) := by
  refine ⟨?_, ?_, List.nil_sublist _⟩
  · by_cases hb : inBounds s d h = true
    · refine Or.inr ⟨⟨st.nextId, s, d, h, t.getD now⟩, ?_, ?_⟩ <;>
        simp [postReading, parseReadingCreate, hb, create_reading]
    · exact Or.inl (by simp [postReading, parseReadingCreate, hb])
  · unfold delete_reading
    cases hf : st.rows.find? (fun r => r.id == rid) with
    | some r => simpa [hf] using List.eraseP_sublist st.rows
    | none => simp [hf]

/-- C1: on a well-formed store and a valid triple, create followed by get at
the returned id yields exactly the created reading: same systolic,
diastolic, heart_rate, and the stored timestamp (the supplied one, or the
creation-time clock value when none was supplied). -/
theorem create_then_get (st : Store) (hwf : st.Wf) (s d h : Int)
    (t : Option Int) (now : Int) (hb : inBounds s d h = true) :
    ∃ st2 r, postReading st s d h t now = (st2, .ok r) ∧
      get_reading st2 r.id = .ok r ∧
      r.systolic = s ∧ r.diastolic = d ∧ r.heart_rate = h ∧
      r.timestamp = t.getD now := by
  refine ⟨⟨st.rows ++ [⟨st.nextId, s, d, h, t.getD now⟩], st.nextId + 1⟩,
    ⟨st.nextId, s, d, h, t.getD now⟩, ?_, ?_, rfl, rfl, rfl, rfl⟩
  · simp [postReading, parseReadingCreate, hb, create_reading]
  · have hnone : st.rows.find? (fun r => r.id == st.nextId) = none := by
      rw [List.find?_eq_none]
      intro r hr
      simpa using Int.ne_of_lt (hwf r hr)
    simp [get_reading, List.find?_append, hnone, List.find?]

/-- Witness for C1: create then get on the empty store at the triple
(120, 80, 70) with no caller timestamp. -/
theorem create_then_get_witness :
    ∃ st2 r, postReading emptyStore 120 80 70 none 0 = (st2, .ok r) ∧
      get_reading st2 r.id = .ok r ∧
      r.systolic = 120 ∧ r.diastolic = 80 ∧ r.heart_rate = 70 ∧
      r.timestamp = (none : Option Int).getD 0 :=
  create_then_get emptyStore (by simp [Store.Wf, emptyStore]) 120 80 70 none 0
    (by decide)

/-- C4: for every store state, skip, and limit in [1,100], the list
operation returns at most limit records, each drawn from the store's rows,
and the returned sequence is sorted by timestamp descending (each record's
timestamp is ≥ the next one's). -/
theorem list_window_bounded_sorted (st : Store) (skip limit : Nat)
    (_hlim : 1 ≤ limit ∧ limit ≤ 100) :
    (get_readings st skip limit).length ≤ limit ∧
    (∀ r ∈ get_readings st skip limit, r ∈ st.rows) ∧
    List.Sorted tsDesc (get_readings st skip limit) := by
  refine ⟨?_, ?_, ?_⟩
  · simp [get_readings]
  · intro r hr
    simp only [get_readings] at hr
    have h1 := List.Sublist.mem hr
      ((List.take_sublist _ _).trans (List.drop_sublist _ _))
    simpa [sortByTimestampDesc] using h1
  · simp only [get_readings]
    exact List.Pairwise.sublist
      ((List.take_sublist _ _).trans (List.drop_sublist _ _))
      (List.sorted_insertionSort tsDesc st.rows)

/-- Witness for C4 at a concrete three-row store with skip 0 and limit 2. -/
theorem list_window_bounded_sorted_witness :
    (get_readings ⟨[⟨1, 120, 80, 70, 10⟩, ⟨2, 130, 85, 72, 30⟩,
        ⟨3, 110, 75, 68, 20⟩], 4⟩ 0 2).length ≤ 2 ∧
    (∀ r ∈ get_readings ⟨[⟨1, 120, 80, 70, 10⟩, ⟨2, 130, 85, 72, 30⟩,
        ⟨3, 110, 75, 68, 20⟩], 4⟩ 0 2,
      r ∈ [⟨1, 120, 80, 70, 10⟩, ⟨2, 130, 85, 72, 30⟩,
        (⟨3, 110, 75, 68, 20⟩ : Reading)]) ∧
    List.Sorted tsDesc (get_readings ⟨[⟨1, 120, 80, 70, 10⟩,
        ⟨2, 130, 85, 72, 30⟩, ⟨3, 110, 75, 68, 20⟩], 4⟩ 0 2) :=
  list_window_bounded_sorted ⟨[⟨1, 120, 80, 70, 10⟩, ⟨2, 130, 85, 72, 30⟩,
    ⟨3, 110, 75, 68, 20⟩], 4⟩ 0 2 (by decide)

/-- Propagation of a failing row: when any source row raises during
conversion, the whole migration loop raises. -/
theorem migrateRows_error_of_mem {src : List Row} {row : Row}
    (hmem : row ∈ src) {e : PyErr} (he : migrateRow row = .error e) :
    ∃ e2, migrateRows src = .error e2 := by
  induction src with
  | nil => cases hmem
  | cons a rest ih =>
      rcases List.mem_cons.mp hmem with rfl | hmem2
      · exact ⟨e, by simp [migrateRows, he]⟩
      · cases ha : migrateRow a with
        | error e3 => exact ⟨e3, by simp [migrateRows, ha]⟩
        | ok r =>
            obtain ⟨e2, h2⟩ := ih hmem2
            exact ⟨e2, by simp [migrateRows, ha, h2]⟩

/-- C3: migration is atomic over the batch — the source rows come back
unchanged whatever happens, and as soon as any source row raises during
insertion the whole transaction is rolled back and the target is returned
exactly as it was. -/
theorem migrate_atomic (src : List Row) (target : Store) :
    (migrate_data src target).1 = src ∧
    ((∃ row ∈ src, ∃ e, migrateRow row = .error e) →
      migrate_data src target = (src, target)) := by
  constructor
  · unfold migrate_data
    cases migrateRows src <;> simp
  · rintro ⟨row, hmem, e, he⟩
    obtain ⟨e2, h2⟩ := migrateRows_error_of_mem hmem he
    simp [migrate_data, h2]

/-- One source row as fetched from a table created by the repository's own
model: columns id, systolic, diastolic, heart_rate, timestamp — no `note`
column. -/
def srcRow1 : Row :=
  [("id", 1), ("systolic", 120), ("diastolic", 80), ("heart_rate", 70),
   ("timestamp", 0)]

/-- Witness for C3: migrating the one-row source into the empty target
raises (KeyError on the absent `note` column) and leaves both stores
unchanged. -/
theorem migrate_atomic_witness :
    migrate_data [srcRow1] emptyStore = ([srcRow1], emptyStore) :=
  (migrate_atomic [srcRow1] emptyStore).2 ⟨srcRow1, by simp, .keyError, rfl⟩

/-- Source rows with ids 1..5, as the spec's migration scenario fetches
them from a table created by the repository's model (which has no `note`
column). -/
def srcRows5 : List Row :=
  [[("id", 1), ("systolic", 120), ("diastolic", 80), ("heart_rate", 70),
    ("timestamp", 100)],
   [("id", 2), ("systolic", 121), ("diastolic", 81), ("heart_rate", 71),
    ("timestamp", 200)],
   [("id", 3), ("systolic", 122), ("diastolic", 82), ("heart_rate", 72),
    ("timestamp", 300)],
   [("id", 4), ("systolic", 123), ("diastolic", 83), ("heart_rate", 73),
    ("timestamp", 400)],
   [("id", 5), ("systolic", 124), ("diastolic", 84), ("heart_rate", 74),
    ("timestamp", 500)]]

/-- C2 (divergence): running the migration on a source holding rows id 1..5
against the empty target copies nothing — the loop body's reference to the
nonexistent `note` column raises on the first row, the transaction is
rolled back, the target stays empty, and a subsequent create on the target
assigns id 1, not 6.  Each row is also individually rejected: even if the
dict lookup were to succeed, the model constructor refuses the `note`
keyword, so no path inserts a row. -/
theorem migration_loses_all_rows :
    migrate_data srcRows5 emptyStore = (srcRows5, emptyStore) ∧
    (postReading emptyStore 120 80 70 none 0).2 =
      .ok { id := 1, systolic := 120, diastolic := 80, heart_rate := 70,
            timestamp := 0 } ∧
    migrateRow srcRow1 = .error .keyError ∧
    modelNew [("id", 1), ("systolic", 120), ("diastolic", 80),
      ("heart_rate", 70), ("timestamp", 0), ("note", 0)] =
        .error .typeError := by
  exact ⟨rfl, rfl, rfl, rfl⟩

end BPTracker
